import Mathlib

/-!
Shallow embedding of the tool functions of the Crypto-agent repository
(src/app.py and src/blockchain_assistant/agent.py).

Python strings are modelled by Lean `String`; `str.lower()` by
`String.toLower` and `str.strip()` by `String.trim` (both faithful on the
ASCII inputs these tables use).  Python `float` amounts are modelled by
exact rationals `ℚ`; every conversion factor in the table (1, 1e8, 1e9,
1e18) is exactly representable as an IEEE double, so the table itself is
embedded exactly.  Python dicts with fixed literal keys are modelled by
association lists in insertion order, and `dict` results are modelled by
inductive result envelopes, one constructor per `status` shape that the
source can return.
-/

/-- Model of Python `str.lower()`: lowercase every character (faithful on
the ASCII strings these tables and tests use). -/
def pyLower (s : String) : String := ⟨s.data.map Char.toLower⟩

/-- Model of Python `str.strip()`: remove leading and trailing
whitespace. -/
def pyStrip (s : String) : String :=
  ⟨((s.data.dropWhile Char.isWhitespace).reverse.dropWhile Char.isWhitespace).reverse⟩

/-- Hex character class of the Python regex `[a-fA-F0-9]`. -/
def isHexChar (c : Char) : Bool :=
  ('0' ≤ c && c ≤ '9') || ('a' ≤ c && c ≤ 'f') || ('A' ≤ c && c ≤ 'F')

/-- Character class of the Python regex `[a-zA-HJ-NP-Z0-9]` used for
Bitcoin addresses: all lowercase letters (including `l`), uppercase
letters except `I` and `O`, and all digits (including `0`). -/
def isBtcChar (c : Char) : Bool :=
  ('a' ≤ c && c ≤ 'z') || ('A' ≤ c && c ≤ 'H') || ('J' ≤ c && c ≤ 'N') ||
  ('P' ≤ c && c ≤ 'Z') || ('0' ≤ c && c ≤ '9')

/-- Character class of the Python regex `[1-9A-HJ-NP-Za-km-z]` used for
Solana addresses: the base58 alphabet (digits 1-9, uppercase letters
except `I` and `O`, lowercase letters except `l`). -/
def isSolChar (c : Char) : Bool :=
  ('1' ≤ c && c ≤ '9') || ('A' ≤ c && c ≤ 'H') || ('J' ≤ c && c ≤ 'N') ||
  ('P' ≤ c && c ≤ 'Z') || ('a' ≤ c && c ≤ 'k') || ('m' ≤ c && c ≤ 'z')

/-- Strip a literal prefix from a character list, returning the remaining
suffix when the prefix is present.  Models consuming a literal alternative
such as `1`, `3` or `bc1` at the start of a Python regex. -/
def stripPrefixChars : List Char → List Char → Option (List Char)
  | [], cs => some cs
  | _ :: _, [] => none
  | p :: ps, c :: cs => if c == p then stripPrefixChars ps cs else none

/-- Body of each address regex: a character class repeated between `lo`
and `hi` times, as in `[...]\x7b25,62\x7d`. -/
def classBody (f : Char → Bool) (lo hi : Nat) (cs : List Char) : Bool :=
  lo ≤ cs.length && cs.length ≤ hi && cs.all f

/-- Alternation of literal prefixes followed by a class body, as in
`^(1|3|bc1)[...]\x7b25,62\x7d`. -/
def matchAlt (ps : List (List Char)) (f : Char → Bool) (lo hi : Nat)
    (cs : List Char) : Bool :=
  ps.any fun p =>
    match stripPrefixChars p cs with
    | some rest => classBody f lo hi rest
    | none => false

/-- Python `re` semantics of a final `$`: it matches at the end of the
string or just before one newline at the very end of the string, so the
pattern body is matched against the input with one trailing newline (if
any) removed. -/
def stripTrailingNewline (cs : List Char) : List Char :=
  if cs.getLast? == some '\n' then cs.dropLast else cs

/-- Evaluation of `bool(re.match(pattern, s))` for the anchored patterns
of `validate_wallet_address`: alternation of literal prefixes, a counted
character class, and a final `$` with Python's trailing-newline rule. -/
def pyFullMatch (ps : List (List Char)) (f : Char → Bool) (lo hi : Nat)
    (s : String) : Bool :=
  matchAlt ps f lo hi (stripTrailingNewline s.data)

/-- The Ethereum pattern `^0x[a-fA-F0-9]\x7b40\x7d$`. -/
def ethMatches (address : String) : Bool :=
  pyFullMatch [['0', 'x']] isHexChar 40 40 address

/-- The Bitcoin pattern `^(1|3|bc1)[a-zA-HJ-NP-Z0-9]\x7b25,62\x7d$`. -/
def btcMatches (address : String) : Bool :=
  pyFullMatch [['1'], ['3'], ['b', 'c', '1']] isBtcChar 25 62 address

/-- The Solana pattern `^[1-9A-HJ-NP-Za-km-z]\x7b32,44\x7d$`. -/
def solMatches (address : String) : Bool :=
  pyFullMatch [[]] isSolChar 32 44 address

example : ethMatches "0x71C7656EC7ab88b098defB751B7401B5f6d8976F" = true := by decide
example : ethMatches "0x71C7656EC7ab88b098defB751B7401B5f6d8976" = false := by decide
example : ethMatches "abc" = false := by decide
example : ethMatches "0xaaaaaaaaaaaaaaaaaaaaaaaaaaaaaaaaaaaaaaaa\n" = true := by decide
example : btcMatches "1lllllllllllllllllllllllll" = true := by decide
example : solMatches "11111111111111111111111111111111111111111111\n" = true := by decide
example : solMatches "1111111111111111111111111111111l" = false := by decide

/-- One record of the `blockchain_data` dict of `get_blockchain_info`. -/
structure ChainRecord where
  name : String
  symbol : String
  consensus : String
  avg_block_time : String
  smart_contracts : Bool
  launched : String
  founder : String
  website : String
  description : String
deriving DecidableEq

/-- Result envelope of `get_blockchain_info`: a dict with status
`"success"` carrying the record, or status `"not_found"` carrying a
message and the list of available chain keys. -/
inductive InfoResult where
  | success (data : ChainRecord)
  | notFound (message : String) (available_chains : List String)
deriving DecidableEq

/-- The `status` field of a `get_blockchain_info` result dict. -/
def InfoResult.status : InfoResult → String
  | .success _ => "success"
  | .notFound _ _ => "not_found"

/-- The `blockchain_data` table of `src/app.py` (insertion order). -/
def blockchain_data : List (String × ChainRecord) :=
  [("ethereum",
    { name := "Ethereum", symbol := "ETH", consensus := "Proof of Stake (PoS)",
      avg_block_time := "~12 seconds", smart_contracts := true, launched := "2015",
      founder := "Vitalik Buterin", website := "https://ethereum.org",
      description := "A decentralized platform for building dApps and smart contracts." }),
   ("bitcoin",
    { name := "Bitcoin", symbol := "BTC", consensus := "Proof of Work (PoW)",
      avg_block_time := "~10 minutes", smart_contracts := false, launched := "2009",
      founder := "Satoshi Nakamoto", website := "https://bitcoin.org",
      description := "The first and most well-known cryptocurrency." }),
   ("solana",
    { name := "Solana", symbol := "SOL", consensus := "Proof of History (PoH) + Proof of Stake",
      avg_block_time := "~400 milliseconds", smart_contracts := true, launched := "2020",
      founder := "Anatoly Yakovenko", website := "https://solana.com",
      description := "A high-performance blockchain with fast transactions and low fees." }),
   ("polygon",
    { name := "Polygon", symbol := "MATIC", consensus := "Proof of Stake (PoS)",
      avg_block_time := "~2 seconds", smart_contracts := true, launched := "2017",
      founder := "Jaynti Kanani, Sandeep Nailwal, Anurag Arjun",
      website := "https://polygon.technology",
      description := "An Ethereum Layer 2 scaling solution." }),
   ("avalanche",
    { name := "Avalanche", symbol := "AVAX", consensus := "Avalanche Consensus (PoS variant)",
      avg_block_time := "~2 seconds", smart_contracts := true, launched := "2020",
      founder := "Emin GÃ¼n Sirer", website := "https://www.avax.network",
      description := "A highly scalable blockchain platform for dApps." }),
   ("cardano",
    { name := "Cardano", symbol := "ADA", consensus := "Ouroboros Proof of Stake",
      avg_block_time := "~20 seconds", smart_contracts := true, launched := "2017",
      founder := "Charles Hoskinson", website := "https://cardano.org",
      description := "A research-driven blockchain focused on security." })]

/-- Embedding of `get_blockchain_info` of `src/app.py` (lines 21-99). -/
def get_blockchain_info (chain_name : String) : InfoResult :=
  let chain_key := pyStrip (pyLower chain_name)
  match blockchain_data.lookup chain_key with
  | some data => .success data
  | none =>
      .notFound ("Blockchain '" ++ chain_name ++ "' not found.")
        (blockchain_data.map Prod.fst)

example : (get_blockchain_info " ETHEREUM ").status = "success" := by decide
example :
    get_blockchain_info "dogecoin" =
      .notFound "Blockchain 'dogecoin' not found."
        ["ethereum", "bitcoin", "solana", "polygon", "avalanche", "cardano"] := by decide

/-- One entry of the `validations` dict of `validate_wallet_address`: the
compiled regex (modelled as a Boolean matcher) and the human-readable
format description. -/
structure AddressValidation where
  pattern : String → Bool
  description : String

/-- Result envelope of `validate_wallet_address`: status `"success"`
(echoing address and chain, with the validity flag, format description
and validity message) or status `"error"` (message plus the supported
chains). -/
inductive ValidationResult where
  | success (address : String) (chain : String) (is_valid : Bool)
      (format_description : String) (message : String)
  | error (message : String) (supported_chains : List String)
deriving DecidableEq

/-- The `status` field of a `validate_wallet_address` result dict. -/
def ValidationResult.status : ValidationResult → String
  | .success _ _ _ _ _ => "success"
  | .error _ _ => "error"

/-- The `is_valid` field of a `validate_wallet_address` result dict, when
present. -/
def ValidationResult.isValidFlag : ValidationResult → Option Bool
  | .success _ _ is_valid _ _ => some is_valid
  | .error _ _ => none

/-- The `validations` table of `validate_wallet_address` in
`src/app.py` (lines 106-119). -/
def validations : List (String × AddressValidation) :=
  [("ethereum",
    { pattern := ethMatches,
      description := "Ethereum addresses start with '0x' followed by 40 hex characters" }),
   ("bitcoin",
    { pattern := btcMatches,
      description := "Bitcoin addresses start with '1', '3', or 'bc1'" }),
   ("solana",
    { pattern := solMatches,
      description := "Solana addresses are base58 encoded, 32-44 characters" })]

/-- Embedding of `validate_wallet_address` of `src/app.py`
(lines 102-137); the `chain` argument defaults to `"ethereum"`. -/
def validate_wallet_address (address : String)
    (chain : String := "ethereum") : ValidationResult :=
  let chain_lower := pyLower chain
  match validations.lookup chain_lower with
  | none =>
      .error ("Validation not supported for chain: " ++ chain)
        (validations.map Prod.fst)
  | some v =>
      let is_valid := v.pattern address
      .success address chain is_valid v.description
        (if is_valid then "Address format is valid!" else "Invalid address format.")

example :
    validate_wallet_address "0x71C7656EC7ab88b098defB751B7401B5f6d8976F" "ethereum" =
      .success "0x71C7656EC7ab88b098defB751B7401B5f6d8976F" "ethereum" true
        "Ethereum addresses start with '0x' followed by 40 hex characters"
        "Address format is valid!" := by decide
example : (validate_wallet_address "abc").isValidFlag = some false := by decide
example :
    validate_wallet_address "whatever" "ripple" =
      .error "Validation not supported for chain: ripple"
        ["ethereum", "bitcoin", "solana"] := by decide

/-- One record of the `gas_info` dict of `explain_gas_fees`. -/
structure GasProfile where
  fee_name : String
  unit : String
  components : List String
  explanation : String
  typical_costs : List (String × String)
deriving DecidableEq

/-- Result envelope of `explain_gas_fees`: status `"success"` (echoing the
chain and carrying the profile) or status `"not_found"`. -/
inductive GasResult where
  | success (chain : String) (gas_info : GasProfile)
  | notFound (message : String) (available_chains : List String)
deriving DecidableEq

/-- The `status` field of an `explain_gas_fees` result dict. -/
def GasResult.status : GasResult → String
  | .success _ _ => "success"
  | .notFound _ _ => "not_found"

/-- The `gas_info` table of `src/app.py` (lines 142-174). -/
def gas_info : List (String × GasProfile) :=
  [("ethereum",
    { fee_name := "Gas", unit := "Gwei (1 Gwei = 0.000000001 ETH)",
      components := ["Base Fee", "Priority Fee (Tip)"],
      explanation := "Ethereum gas fees consist of Base Fee (burned) and Priority Fee (tip to validators).",
      typical_costs :=
        [("simple_transfer", "21,000 gas units"),
         ("token_transfer", "~65,000 gas units"),
         ("swap", "~150,000 gas units")] }),
   ("solana",
    { fee_name := "Transaction Fee", unit := "Lamports (1 SOL = 1B Lamports)",
      components := ["Base Fee", "Priority Fee"],
      explanation := "Solana has extremely low fees, typically a fraction of a cent.",
      typical_costs :=
        [("simple_transfer", "~0.000005 SOL"),
         ("token_transfer", "~0.00001 SOL")] }),
   ("polygon",
    { fee_name := "Gas (MATIC)", unit := "Gwei (paid in MATIC)",
      components := ["Base Fee", "Priority Fee"],
      explanation := "Polygon uses a similar gas model to Ethereum but much cheaper.",
      typical_costs :=
        [("simple_transfer", "~$0.001-0.01"),
         ("swap", "~$0.05-0.20")] })]

/-- Embedding of `explain_gas_fees` of `src/app.py` (lines 140-183); the
`chain` argument defaults to `"ethereum"`.  Note: the key is lowercased
but, unlike `get_blockchain_info`, never stripped of whitespace. -/
def explain_gas_fees (chain : String := "ethereum") : GasResult :=
  let chain_lower := pyLower chain
  match gas_info.lookup chain_lower with
  | some g => .success chain g
  | none =>
      .notFound ("Gas info not available for " ++ chain)
        (gas_info.map Prod.fst)

example : (explain_gas_fees "ethereum").status = "success" := by decide
example : (explain_gas_fees " ETHEREUM ").status = "not_found" := by decide

/-- One record of the `templates` dict of `get_smart_contract_template`
in `src/app.py`. -/
structure ContractTemplate where
  name : String
  description : String
  code : String
deriving DecidableEq

/-- Result envelope of `get_smart_contract_template`: status `"success"`
carrying the template, or status `"not_found"`. -/
inductive TemplateResult where
  | success (template : ContractTemplate)
  | notFound (message : String) (available_templates : List String)
deriving DecidableEq

/-- The `status` field of a `get_smart_contract_template` result dict. -/
def TemplateResult.status : TemplateResult → String
  | .success _ => "success"
  | .notFound _ _ => "not_found"

/-- The `templates` table of `src/app.py` (lines 188-255), with the
literal Solidity source text of each template. -/
def templates : List (String × ContractTemplate) :=
  [("erc20",
    { name := "ERC-20 Token", description := "Standard fungible token contract",
      code := "// SPDX-License-Identifier: MIT\npragma solidity ^0.8.19;\n\nimport \"@openzeppelin/contracts/token/ERC20/ERC20.sol\";\nimport \"@openzeppelin/contracts/access/Ownable.sol\";\n\ncontract MyToken is ERC20, Ownable \x7b\n    constructor(string memory name, string memory symbol, uint256 initialSupply)\n        ERC20(name, symbol) Ownable(msg.sender) \x7b\n        _mint(msg.sender, initialSupply * 10 ** decimals());\n    \x7d\n\n    function mint(address to, uint256 amount) public onlyOwner \x7b\n        _mint(to, amount);\n    \x7d\n\x7d" }),
   ("erc721",
    { name := "ERC-721 NFT", description := "Standard NFT contract",
      code := "// SPDX-License-Identifier: MIT\npragma solidity ^0.8.19;\n\nimport \"@openzeppelin/contracts/token/ERC721/ERC721.sol\";\nimport \"@openzeppelin/contracts/token/ERC721/extensions/ERC721URIStorage.sol\";\nimport \"@openzeppelin/contracts/access/Ownable.sol\";\n\ncontract MyNFT is ERC721, ERC721URIStorage, Ownable \x7b\n    uint256 private _tokenIdCounter;\n\n    constructor() ERC721(\"MyNFT\", \"MNFT\") Ownable(msg.sender) \x7b\x7d\n\n    function safeMint(address to, string memory uri) public onlyOwner \x7b\n        uint256 tokenId = _tokenIdCounter++;\n        _safeMint(to, tokenId);\n        _setTokenURI(tokenId, uri);\n    \x7d\n\n    function tokenURI(uint256 tokenId) public view override(ERC721, ERC721URIStorage)\n        returns (string memory) \x7b return super.tokenURI(tokenId); \x7d\n\n    function supportsInterface(bytes4 interfaceId) public view override(ERC721, ERC721URIStorage)\n        returns (bool) \x7b return super.supportsInterface(interfaceId); \x7d\n\x7d" }),
   ("simple_storage",
    { name := "Simple Storage", description := "Basic learning contract",
      code := "// SPDX-License-Identifier: MIT\npragma solidity ^0.8.19;\n\ncontract SimpleStorage \x7b\n    uint256 private storedValue;\n    event ValueChanged(uint256 newValue, address changedBy);\n\n    function set(uint256 value) public \x7b\n        storedValue = value;\n        emit ValueChanged(value, msg.sender);\n    \x7d\n\n    function get() public view returns (uint256) \x7b return storedValue; \x7d\n\x7d" })]

/-- Embedding of `get_smart_contract_template` of `src/app.py`
(lines 186-264). -/
def get_smart_contract_template (contract_type : String) : TemplateResult :=
  let contract_key := pyStrip (pyLower contract_type)
  match templates.lookup contract_key with
  | some t => .success t
  | none =>
      .notFound ("Template '" ++ contract_type ++ "' not found.")
        (templates.map Prod.fst)

example : (get_smart_contract_template " ERC20 ").status = "success" := by decide
example :
    get_smart_contract_template "dao" =
      .notFound "Template 'dao' not found."
        ["erc20", "erc721", "simple_storage"] := by decide

/-- The `conversions` table of `convert_crypto_units`: multiplicative
factor of each unit relative to its family's base unit.  The Python
values `1`, `1e9`, `1e18`, `1e8` are all exactly representable IEEE
doubles, so the table embeds exactly into `ℚ`. -/
def conversions : List (String × ℚ) :=
  [("wei", 1), ("gwei", 10 ^ 9), ("eth", 10 ^ 18), ("ether", 10 ^ 18),
   ("satoshi", 1), ("sat", 1), ("btc", 10 ^ 8), ("bitcoin", 10 ^ 8),
   ("lamport", 1), ("lamports", 1), ("sol", 10 ^ 9), ("solana", 10 ^ 9)]

/-- The `eth_units` list of `convert_crypto_units`. -/
def eth_units : List String := ["wei", "gwei", "eth", "ether"]

/-- The `btc_units` list of `convert_crypto_units`. -/
def btc_units : List String := ["satoshi", "sat", "btc", "bitcoin"]

/-- The `sol_units` list of `convert_crypto_units`. -/
def sol_units : List String := ["lamport", "lamports", "sol", "solana"]

/-- The inner `get_chain` helper of `convert_crypto_units`: the chain
family of a lowercased unit name, `none` when the unit is in no family
list (Python `None`). -/
def get_chain (unit : String) : Option String :=
  if eth_units.contains unit then some "ethereum"
  else if btc_units.contains unit then some "bitcoin"
  else if sol_units.contains unit then some "solana"
  else none

/-- How a Python f-string renders a `get_chain` result: the string itself,
or `"None"` for Python `None`. -/
def showChain : Option String → String
  | some s => s
  | none => "None"

/-- Result envelope of `convert_crypto_units`: status `"success"` with
input/output amount-unit pairs and the blockchain family, or one of the
two `"error"` dicts of the source (unknown unit, listing all valid units;
or cross-family conversion). -/
inductive ConvertResult where
  | success (input : ℚ × String) (output : ℚ × String) (blockchain : Option String)
  | errorUnits (message : String) (available_units : List String)
  | errorChains (message : String)
deriving DecidableEq

/-- The `status` field of a `convert_crypto_units` result dict. -/
def ConvertResult.status : ConvertResult → String
  | .success _ _ _ => "success"
  | .errorUnits _ _ => "error"
  | .errorChains _ => "error"

/-- The `output.amount` field of a `convert_crypto_units` result dict,
when present. -/
def ConvertResult.outputAmount : ConvertResult → Option ℚ
  | .success _ output _ => some output.1
  | .errorUnits _ _ => none
  | .errorChains _ => none

/-- Embedding of `convert_crypto_units` of `src/app.py` (lines 267-300).
The float amount is modelled as an exact rational. -/
def convert_crypto_units (amount : ℚ) (from_unit : String)
    (to_unit : String) : ConvertResult :=
  let from_lower := pyLower from_unit
  let to_lower := pyLower to_unit
  match conversions.lookup from_lower, conversions.lookup to_lower with
  | some f, some t =>
      let from_chain := get_chain from_lower
      let to_chain := get_chain to_lower
      if from_chain ≠ to_chain then
        .errorChains ("Cannot convert between " ++ showChain from_chain ++
          " and " ++ showChain to_chain)
      else
        .success (amount, from_unit) (amount * f / t, to_unit) from_chain
  | _, _ => .errorUnits "Invalid unit" (conversions.map Prod.fst)

example :
    convert_crypto_units 1 "eth" "gwei" =
      .success (1, "eth") (10 ^ 9, "gwei") (some "ethereum") := by
  have h : convert_crypto_units 1 "eth" "gwei" =
      .success (1, "eth") (1 * 10 ^ 18 / 10 ^ 9, "gwei") (some "ethereum") := rfl
  rw [h]
  simp only [ConvertResult.success.injEq]
  norm_num
example :
    convert_crypto_units 21000 "gwei" "eth" =
      .success (21000, "gwei") ((21 : ℚ) / 1000000, "eth") (some "ethereum") := by
  have h : convert_crypto_units 21000 "gwei" "eth" =
      .success (21000, "gwei") (21000 * 10 ^ 9 / 10 ^ 18, "eth") (some "ethereum") := rfl
  rw [h]
  simp only [ConvertResult.success.injEq]
  norm_num
example :
    convert_crypto_units 1 "eth" "btc" =
      .errorChains "Cannot convert between ethereum and bitcoin" := by decide

/-- The `blockchain_data` table of
`src/blockchain_assistant/agent.py` (lines 23-101); it has an extra
`"binance"` entry and several description texts differ from
`src/app.py`. -/
def agent_blockchain_data : List (String × ChainRecord) :=
  [("ethereum",
    { name := "Ethereum", symbol := "ETH", consensus := "Proof of Stake (PoS)",
      avg_block_time := "~12 seconds", smart_contracts := true, launched := "2015",
      founder := "Vitalik Buterin", website := "https://ethereum.org",
      description := "A decentralized platform for building dApps and smart contracts." }),
   ("bitcoin",
    { name := "Bitcoin", symbol := "BTC", consensus := "Proof of Work (PoW)",
      avg_block_time := "~10 minutes", smart_contracts := false, launched := "2009",
      founder := "Satoshi Nakamoto", website := "https://bitcoin.org",
      description := "The first and most well-known cryptocurrency, designed as a peer-to-peer electronic cash system." }),
   ("solana",
    { name := "Solana", symbol := "SOL", consensus := "Proof of History (PoH) + Proof of Stake",
      avg_block_time := "~400 milliseconds", smart_contracts := true, launched := "2020",
      founder := "Anatoly Yakovenko", website := "https://solana.com",
      description := "A high-performance blockchain supporting fast transactions and low fees." }),
   ("polygon",
    { name := "Polygon", symbol := "MATIC", consensus := "Proof of Stake (PoS)",
      avg_block_time := "~2 seconds", smart_contracts := true, launched := "2017",
      founder := "Jaynti Kanani, Sandeep Nailwal, Anurag Arjun",
      website := "https://polygon.technology",
      description := "An Ethereum Layer 2 scaling solution for faster and cheaper transactions." }),
   ("binance",
    { name := "BNB Chain (Binance Smart Chain)", symbol := "BNB",
      consensus := "Proof of Staked Authority (PoSA)",
      avg_block_time := "~3 seconds", smart_contracts := true, launched := "2020",
      founder := "Changpeng Zhao (CZ)", website := "https://www.bnbchain.org",
      description := "A blockchain focusing on fast and low-cost transactions, EVM compatible." }),
   ("avalanche",
    { name := "Avalanche", symbol := "AVAX", consensus := "Avalanche Consensus (PoS variant)",
      avg_block_time := "~2 seconds", smart_contracts := true, launched := "2020",
      founder := "Emin Gün Sirer", website := "https://www.avax.network",
      description := "A highly scalable blockchain platform for decentralized applications." }),
   ("cardano",
    { name := "Cardano", symbol := "ADA", consensus := "Ouroboros Proof of Stake",
      avg_block_time := "~20 seconds", smart_contracts := true, launched := "2017",
      founder := "Charles Hoskinson", website := "https://cardano.org",
      description := "A research-driven blockchain platform focused on security and sustainability." })]

/-- Embedding of `get_blockchain_info` of
`src/blockchain_assistant/agent.py` (lines 13-113). -/
def agent_get_blockchain_info (chain_name : String) : InfoResult :=
  let chain_key := pyStrip (pyLower chain_name)
  match agent_blockchain_data.lookup chain_key with
  | some data => .success data
  | none =>
      .notFound ("Blockchain '" ++ chain_name ++ "' not found in database.")
        (agent_blockchain_data.map Prod.fst)

/-- The `validations` table of `validate_wallet_address` in
`src/blockchain_assistant/agent.py` (lines 127-140): identical regexes,
but the ethereum and solana description texts differ from
`src/app.py`. -/
def agent_validations : List (String × AddressValidation) :=
  [("ethereum",
    { pattern := ethMatches,
      description := "Ethereum addresses start with '0x' followed by 40 hexadecimal characters" }),
   ("bitcoin",
    { pattern := btcMatches,
      description := "Bitcoin addresses start with '1', '3', or 'bc1'" }),
   ("solana",
    { pattern := solMatches,
      description := "Solana addresses are base58 encoded, typically 32-44 characters" })]

/-- Embedding of `validate_wallet_address` of
`src/blockchain_assistant/agent.py` (lines 116-161). -/
def agent_validate_wallet_address (address : String)
    (chain : String := "ethereum") : ValidationResult :=
  let chain_lower := pyLower chain
  match agent_validations.lookup chain_lower with
  | none =>
      .error ("Validation not supported for chain: " ++ chain)
        (agent_validations.map Prod.fst)
  | some v =>
      let is_valid := v.pattern address
      .success address chain is_valid v.description
        (if is_valid then "Address format is valid!" else "Invalid address format.")

/-- Embedding of `convert_crypto_units` of
`src/blockchain_assistant/agent.py` (lines 360-433): the same
`conversions` table and family lists as `src/app.py`, with different
error message texts. -/
def agent_convert_crypto_units (amount : ℚ) (from_unit : String)
    (to_unit : String) : ConvertResult :=
  let from_lower := pyLower from_unit
  let to_lower := pyLower to_unit
  match conversions.lookup from_lower, conversions.lookup to_lower with
  | some f, some t =>
      let from_chain := get_chain from_lower
      let to_chain := get_chain to_lower
      if from_chain ≠ to_chain then
        .errorChains ("Cannot convert between different blockchains (" ++
          showChain from_chain ++ " to " ++ showChain to_chain ++ ")")
      else
        .success (amount, from_unit) (amount * f / t, to_unit) from_chain
  | _, _ => .errorUnits "Invalid unit specified" (conversions.map Prod.fst)

example : (agent_get_blockchain_info "binance").status = "success" := by decide
example : (get_blockchain_info "binance").status = "not_found" := by decide

lemma lookup_cons {β : Type} (a k : String) (b : β) (t : List (String × β)) :
    List.lookup a ((k, b) :: t) = if a = k then some b else List.lookup a t := by
  rcases eq_or_ne a k with h | h
  · subst h
    simp [List.lookup]
  · have hb : (a == k) = false := beq_eq_false_iff_ne.mpr h
    simp [List.lookup, hb, h]

lemma lookup_eq_none_iff {β : Type} (l : List (String × β)) (k : String) :
    l.lookup k = none ↔ k ∉ l.map Prod.fst := by
  induction l with
  | nil => simp [List.lookup]
  | cons p t ih =>
    obtain ⟨a, b⟩ := p
    rw [lookup_cons]
    rcases eq_or_ne k a with h | h
    · subst h
      simp
    · simp [h, ih]

lemma lookup_mem {β : Type} (l : List (String × β)) (k : String) (b : β) :
    l.lookup k = some b → (k, b) ∈ l := by
  induction l with
  | nil => simp [List.lookup]
  | cons p t ih =>
    obtain ⟨a, c⟩ := p
    rw [lookup_cons]
    rcases eq_or_ne k a with h | h
    · subst h
      rw [if_pos rfl]
      intro hb
      obtain rfl : c = b := Option.some.inj hb
      exact List.mem_cons_self _ _
    · rw [if_neg h]
      intro hb
      exact List.mem_cons_of_mem _ (ih hb)

lemma stripPrefixChars_eq_some (p : List Char) :
    ∀ (cs r : List Char), stripPrefixChars p cs = some r ↔ cs = p ++ r := by
  induction p with
  | nil => intro cs r; simp [stripPrefixChars]
  | cons a ps ih =>
    intro cs r
    cases cs with
    | nil => simp [stripPrefixChars]
    | cons c cs' =>
      rcases eq_or_ne c a with h | h
      · subst h
        simp [stripPrefixChars, ih]
      · simp [stripPrefixChars, h]

lemma matchAlt_iff (ps : List (List Char)) (f : Char → Bool) (lo hi : Nat)
    (cs : List Char) :
    matchAlt ps f lo hi cs = true ↔
      ∃ p ∈ ps, ∃ rest, cs = p ++ rest ∧ lo ≤ rest.length ∧
        rest.length ≤ hi ∧ rest.all f = true := by
  simp only [matchAlt, List.any_eq_true]
  constructor
  · rintro ⟨p, hp, hmatch⟩
    cases hs : stripPrefixChars p cs with
    | none => rw [hs] at hmatch; simp at hmatch
    | some rest =>
      rw [hs] at hmatch
      simp only [classBody, Bool.and_eq_true, decide_eq_true_eq] at hmatch
      exact ⟨p, hp, rest, (stripPrefixChars_eq_some p cs rest).1 hs,
        hmatch.1.1, hmatch.1.2, hmatch.2⟩
  · rintro ⟨p, hp, rest, hcs, h1, h2, h3⟩
    refine ⟨p, hp, ?_⟩
    rw [(stripPrefixChars_eq_some p cs rest).2 hcs]
    simp [classBody, h1, h2, h3]

lemma pyFullMatch_iff (ps : List (List Char)) (f : Char → Bool) (lo hi : Nat)
    (s : String) (hf : f '\n' = false) (hlo : 1 ≤ lo) :
    pyFullMatch ps f lo hi s = true ↔
      ∃ p ∈ ps, ∃ rest, lo ≤ rest.length ∧ rest.length ≤ hi ∧
        rest.all f = true ∧
        (s.data = p ++ rest ∨ s.data = p ++ (rest ++ ['\n'])) := by
  unfold pyFullMatch stripTrailingNewline
  by_cases h : s.data.getLast? = some '\n'
  · have hne : s.data ≠ [] := by
      intro h0
      rw [h0] at h
      simp at h
    have hdecomp : s.data.dropLast ++ ['\n'] = s.data := by
      have hgl := List.getLast?_eq_getLast s.data hne
      rw [h] at hgl
      have hlast : s.data.getLast hne = '\n' := by
        exact (Option.some.inj hgl).symm
      have := List.dropLast_append_getLast hne
      rw [hlast] at this
      exact this
    rw [if_pos (by simp [h])]
    rw [matchAlt_iff]
    constructor
    · rintro ⟨p, hp, rest, hcs, h1, h2, h3⟩
      refine ⟨p, hp, rest, h1, h2, h3, Or.inr ?_⟩
      rw [← hdecomp, hcs, List.append_assoc]
    · rintro ⟨p, hp, rest, h1, h2, h3, hcs | hcs⟩
      · exfalso
        have hrne : rest ≠ [] := by
          intro h0
          rw [h0] at h1
          simp at h1
          omega
        have hrl : rest.getLast? = some '\n' := by
          rw [hcs, List.getLast?_append] at h
          cases hr : rest.getLast? with
          | none =>
            exfalso
            have : rest.getLast?.isSome = true := List.getLast?_isSome.2 hrne
            rw [hr] at this
            simp at this
          | some c =>
            rw [hr] at h
            simp only [Option.or_some] at h
            exact h
        have hmem : '\n' ∈ rest := by
          have hopt : '\n' ∈ rest.getLast? := by
            rw [hrl]; rfl
          obtain ⟨hne', heq⟩ := List.mem_getLast?_eq_getLast hopt
          rw [heq]
          exact List.getLast_mem hne'
        have := List.all_eq_true.1 h3 '\n' hmem
        rw [hf] at this
        exact Bool.false_ne_true this
      · refine ⟨p, hp, rest, ?_, h1, h2, h3⟩
        rw [hcs, ← List.append_assoc, List.dropLast_concat]
  · rw [if_neg (by simp [h])]
    rw [matchAlt_iff]
    constructor
    · rintro ⟨p, hp, rest, hcs, h1, h2, h3⟩
      exact ⟨p, hp, rest, h1, h2, h3, Or.inl hcs⟩
    · rintro ⟨p, hp, rest, h1, h2, h3, hcs | hcs⟩
      · exact ⟨p, hp, rest, hcs, h1, h2, h3⟩
      · exfalso
        apply h
        rw [hcs, ← List.append_assoc, List.getLast?_concat]

/-- C5: `get_blockchain_info` lowercases and trims its input to a key;
a key present in the table yields Success with the full record (in
particular `"ethereum"` yields a record with symbol `"ETH"`), any other
input yields NotFound carrying the non-empty list of all known chain
keys (in particular `"dogecoin"` yields `not_found` with
`available_chains` including ethereum, bitcoin and solana). -/
theorem C5_chain_lookup :
    (∀ (s : String) (d : ChainRecord),
      blockchain_data.lookup (pyStrip (pyLower s)) = some d →
      get_blockchain_info s = .success d) ∧
    (∀ s : String,
      blockchain_data.lookup (pyStrip (pyLower s)) = none →
      get_blockchain_info s =
        .notFound ("Blockchain '" ++ s ++ "' not found.")
          ["ethereum", "bitcoin", "solana", "polygon", "avalanche", "cardano"]) ∧
    blockchain_data.map Prod.fst ≠ [] ∧
    (∃ d, get_blockchain_info "ethereum" = .success d ∧ d.symbol = "ETH") ∧
    (get_blockchain_info "dogecoin" =
      .notFound "Blockchain 'dogecoin' not found."
        ["ethereum", "bitcoin", "solana", "polygon", "avalanche", "cardano"] ∧
      "ethereum" ∈ blockchain_data.map Prod.fst ∧
      "bitcoin" ∈ blockchain_data.map Prod.fst ∧
      "solana" ∈ blockchain_data.map Prod.fst) := by
  refine ⟨?_, ?_, by decide, ?_, by decide, by decide, by decide, by decide⟩
  · intro s d h
    simp [get_blockchain_info, h]
  · intro s h
    simp [get_blockchain_info, h]
    rfl
  · exact ⟨{ name := "Ethereum", symbol := "ETH", consensus := "Proof of Stake (PoS)",
             avg_block_time := "~12 seconds", smart_contracts := true, launched := "2015",
             founder := "Vitalik Buterin", website := "https://ethereum.org",
             description := "A decentralized platform for building dApps and smart contracts." },
           by decide, by decide⟩

/-- Witness for C5 at concrete inputs. -/
theorem C5_chain_lookup_witness :
    get_blockchain_info " ETHEREUM " =
      .success
        { name := "Ethereum", symbol := "ETH", consensus := "Proof of Stake (PoS)",
          avg_block_time := "~12 seconds", smart_contracts := true, launched := "2015",
          founder := "Vitalik Buterin", website := "https://ethereum.org",
          description := "A decentralized platform for building dApps and smart contracts." } ∧
    get_blockchain_info "litecoin" =
      .notFound "Blockchain 'litecoin' not found."
        ["ethereum", "bitcoin", "solana", "polygon", "avalanche", "cardano"] :=
  ⟨C5_chain_lookup.1 " ETHEREUM " _ (by decide),
   C5_chain_lookup.2.1 "litecoin" (by decide)⟩

/-- C1: for every amount and pair of unit strings whose lowercased forms
are both in the conversion table and share a chain family,
`convert_crypto_units` returns Success whose output amount is
`amount * factor(from) / factor(to)`, echoing the input amount and unit,
the output unit and the resolved family; if either unit is unknown it
returns Error listing all valid units; `convert(1, "eth", "gwei")` yields
`1e9` and `convert(21000, "gwei", "eth")` yields `0.000021`. -/
theorem C1_convert_semantics :
    (∀ (amount f t : ℚ) (fu tu : String),
      conversions.lookup (pyLower fu) = some f →
      conversions.lookup (pyLower tu) = some t →
      get_chain (pyLower fu) = get_chain (pyLower tu) →
      convert_crypto_units amount fu tu =
        .success (amount, fu) (amount * f / t, tu) (get_chain (pyLower fu))) ∧
    (∀ (amount : ℚ) (fu tu : String),
      conversions.lookup (pyLower fu) = none ∨
        conversions.lookup (pyLower tu) = none →
      convert_crypto_units amount fu tu =
        .errorUnits "Invalid unit"
          ["wei", "gwei", "eth", "ether", "satoshi", "sat", "btc", "bitcoin",
           "lamport", "lamports", "sol", "solana"]) ∧
    convert_crypto_units 1 "eth" "gwei" =
      .success (1, "eth") (10 ^ 9, "gwei") (some "ethereum") ∧
    convert_crypto_units 21000 "gwei" "eth" =
      .success (21000, "gwei") ((21 : ℚ) / 1000000, "eth") (some "ethereum") := by
  refine ⟨?_, ?_, ?_, ?_⟩
  · intro amount f t fu tu hf ht hc
    simp [convert_crypto_units, hf, ht, hc]
  · intro amount fu tu h
    rcases h with h | h
    · simp [convert_crypto_units, h]
      rfl
    · cases hfu : conversions.lookup (pyLower fu) <;>
        simp [convert_crypto_units, h, hfu] <;> rfl
  · have h : convert_crypto_units 1 "eth" "gwei" =
        .success (1, "eth") (1 * 10 ^ 18 / 10 ^ 9, "gwei") (some "ethereum") := rfl
    rw [h]
    simp only [ConvertResult.success.injEq]
    norm_num
  · have h : convert_crypto_units 21000 "gwei" "eth" =
        .success (21000, "gwei") (21000 * 10 ^ 9 / 10 ^ 18, "eth") (some "ethereum") := rfl
    rw [h]
    simp only [ConvertResult.success.injEq]
    norm_num

/-- Witness for C1 at concrete inputs. -/
theorem C1_convert_semantics_witness :
    convert_crypto_units 7 "sol" "lamport" =
      .success (7, "sol") (7 * 10 ^ 9 / 1, "lamport") (some "solana") ∧
    convert_crypto_units 7 "sol" "parsec" =
      .errorUnits "Invalid unit"
        ["wei", "gwei", "eth", "ether", "satoshi", "sat", "btc", "bitcoin",
         "lamport", "lamports", "sol", "solana"] :=
  ⟨C1_convert_semantics.1 7 (10 ^ 9) 1 "sol" "lamport" rfl rfl rfl,
   C1_convert_semantics.2.1 7 "sol" "parsec" (Or.inr rfl)⟩

/-- C3: for units known to the table but of different chain families,
`convert_crypto_units` returns Error whose message names both families,
and never a Success with a numeric result. -/
theorem C3_cross_family_error :
    ∀ (amount f t : ℚ) (fu tu : String),
      conversions.lookup (pyLower fu) = some f →
      conversions.lookup (pyLower tu) = some t →
      get_chain (pyLower fu) ≠ get_chain (pyLower tu) →
      convert_crypto_units amount fu tu =
        .errorChains ("Cannot convert between " ++
          showChain (get_chain (pyLower fu)) ++ " and " ++
          showChain (get_chain (pyLower tu))) ∧
      (convert_crypto_units amount fu tu).status = "error" ∧
      ∀ i o b, convert_crypto_units amount fu tu ≠ .success i o b := by
  intro amount f t fu tu hf ht hc
  have h : convert_crypto_units amount fu tu =
      .errorChains ("Cannot convert between " ++
        showChain (get_chain (pyLower fu)) ++ " and " ++
        showChain (get_chain (pyLower tu))) := by
    simp [convert_crypto_units, hf, ht, hc]
  refine ⟨h, by rw [h]; rfl, ?_⟩
  intro i o b
  rw [h]
  intro hcontra
  exact ConvertResult.noConfusion hcontra

/-- Witness for C3 at the concrete cross-family pair of the spec. -/
theorem C3_cross_family_error_witness :
    convert_crypto_units 1 "eth" "btc" =
      .errorChains "Cannot convert between ethereum and bitcoin" ∧
    (convert_crypto_units 1 "eth" "btc").status = "error" :=
  ⟨((C3_cross_family_error 1 (10 ^ 18) (10 ^ 8) "eth" "btc" rfl rfl
      (by decide)).1 : _),
   (C3_cross_family_error 1 (10 ^ 18) (10 ^ 8) "eth" "btc" rfl rfl
      (by decide)).2.1⟩

lemma conversions_factor_ne_zero (u : String) (f : ℚ) :
    conversions.lookup u = some f → f ≠ 0 := by
  intro h
  have hmem := lookup_mem conversions u f h
  have hall : ∀ p ∈ conversions, p.2 ≠ (0 : ℚ) := by decide
  exact hall (u, f) hmem

/-- C4: converting an amount from one known unit to another of the same
family and then converting the result back returns exactly the original
amount (the conversion arithmetic is modelled over exact rationals, where
the round-trip identity holds with tolerance zero). -/
theorem C4_round_trip :
    ∀ (A f t : ℚ) (fu tu : String),
      conversions.lookup (pyLower fu) = some f →
      conversions.lookup (pyLower tu) = some t →
      get_chain (pyLower fu) = get_chain (pyLower tu) →
      convert_crypto_units A fu tu =
        .success (A, fu) (A * f / t, tu) (get_chain (pyLower fu)) ∧
      convert_crypto_units (A * f / t) tu fu =
        .success (A * f / t, tu) (A * f / t * t / f, fu)
          (get_chain (pyLower tu)) ∧
      A * f / t * t / f = A := by
  intro A f t fu tu hf ht hc
  have hf0 : f ≠ 0 := conversions_factor_ne_zero _ f hf
  have ht0 : t ≠ 0 := conversions_factor_ne_zero _ t ht
  refine ⟨?_, ?_, ?_⟩
  · simp [convert_crypto_units, hf, ht, hc]
  · simp [convert_crypto_units, hf, ht, hc.symm]
  · field_simp

/-- Witness for C4 at a concrete same-family pair. -/
theorem C4_round_trip_witness :
    convert_crypto_units 3 "btc" "satoshi" =
      .success (3, "btc") (3 * 10 ^ 8 / 1, "satoshi") (some "bitcoin") ∧
    convert_crypto_units (3 * 10 ^ 8 / 1) "satoshi" "btc" =
      .success (3 * 10 ^ 8 / 1, "satoshi")
        (3 * 10 ^ 8 / 1 * 1 / 10 ^ 8, "btc") (some "bitcoin") ∧
    (3 : ℚ) * 10 ^ 8 / 1 * 1 / 10 ^ 8 = 3 :=
  C4_round_trip 3 (10 ^ 8) 1 "btc" "satoshi" rfl rfl rfl

/-- C2 counterexample: for the address consisting of `0x`, forty hex
characters and a trailing newline, the Ethereum validator reports
`is_valid = true` although the string is not `0x` followed by exactly 40
hex characters and nothing more (Python's `$` also matches just before a
final newline, so the match is not a whole-string match). -/
theorem C2_counterexample :
    validate_wallet_address "0xaaaaaaaaaaaaaaaaaaaaaaaaaaaaaaaaaaaaaaaa\n" "ethereum" =
      .success "0xaaaaaaaaaaaaaaaaaaaaaaaaaaaaaaaaaaaaaaaa\n" "ethereum" true
        "Ethereum addresses start with '0x' followed by 40 hex characters"
        "Address format is valid!" ∧
    ¬ ∃ body : List Char, body.length = 40 ∧ body.all isHexChar = true ∧
        ("0xaaaaaaaaaaaaaaaaaaaaaaaaaaaaaaaaaaaaaaaa\n" : String).data =
          '0' :: 'x' :: body := by
  refine ⟨by decide, ?_⟩
  rintro ⟨body, hlen, _, hdata⟩
  have h43 : ("0xaaaaaaaaaaaaaaaaaaaaaaaaaaaaaaaaaaaaaaaa\n" : String).data.length = 43 := by
    decide
  rw [hdata] at h43
  simp only [List.length_cons] at h43
  omega

/-- C2 amended: the Ethereum validator returns Success echoing the
address, with `is_valid = true` exactly when the whole string is `0x`
followed by 40 hex characters, optionally followed by one trailing
newline (the trailing-newline exception comes from Python's `$`
semantics). -/
theorem C2_eth_validation :
    ∀ addr : String,
      validate_wallet_address addr "ethereum" =
        .success addr "ethereum" (ethMatches addr)
          "Ethereum addresses start with '0x' followed by 40 hex characters"
          (if ethMatches addr then "Address format is valid!"
           else "Invalid address format.") ∧
      (ethMatches addr = true ↔
        ∃ body : List Char, body.length = 40 ∧ body.all isHexChar = true ∧
          (addr.data = '0' :: 'x' :: body ∨
           addr.data = '0' :: 'x' :: (body ++ ['\n']))) := by
  intro addr
  refine ⟨rfl, ?_⟩
  rw [ethMatches, pyFullMatch_iff _ _ _ _ _ (by decide) (by decide)]
  constructor
  · rintro ⟨p, hp, rest, h1, h2, h3, hshape⟩
    simp only [List.mem_singleton] at hp
    subst hp
    exact ⟨rest, le_antisymm h2 h1, h3, by simpa using hshape⟩
  · rintro ⟨body, hlen, hall, hshape⟩
    exact ⟨['0', 'x'], by simp, body, by omega, by omega, hall,
      by simpa using hshape⟩

/-- Witness for C2 at the spec's concrete valid and invalid addresses. -/
theorem C2_eth_validation_witness :
    validate_wallet_address "0x71C7656EC7ab88b098defB751B7401B5f6d8976F" "ethereum" =
      .success "0x71C7656EC7ab88b098defB751B7401B5f6d8976F" "ethereum"
        (ethMatches "0x71C7656EC7ab88b098defB751B7401B5f6d8976F")
        "Ethereum addresses start with '0x' followed by 40 hex characters"
        (if ethMatches "0x71C7656EC7ab88b098defB751B7401B5f6d8976F" then
          "Address format is valid!" else "Invalid address format.") ∧
    validate_wallet_address "abc" "ethereum" =
      .success "abc" "ethereum" (ethMatches "abc")
        "Ethereum addresses start with '0x' followed by 40 hex characters"
        (if ethMatches "abc" then "Address format is valid!"
         else "Invalid address format.") :=
  ⟨(C2_eth_validation "0x71C7656EC7ab88b098defB751B7401B5f6d8976F").1,
   (C2_eth_validation "abc").1⟩

/-- C7 counterexample: the Solana validator accepts a 45-character string
containing a final newline (45 characters is outside 32-44 and `\n` is
not a base58 character), and the Bitcoin validator accepts `1` followed
by 26 letters `l` although `l` is excluded from the base58 alphabet
convention. -/
theorem C7_counterexample :
    (validate_wallet_address "11111111111111111111111111111111111111111111\n"
        "solana").isValidFlag = some true ∧
    ("11111111111111111111111111111111111111111111\n" : String).data.length = 45 ∧
    '\n' ∈ ("11111111111111111111111111111111111111111111\n" : String).data ∧
    (validate_wallet_address "1llllllllllllllllllllllllll"
        "bitcoin").isValidFlag = some true ∧
    'l' ∈ ("1llllllllllllllllllllllllll" : String).data := by
  refine ⟨by decide, by decide, by decide, by decide, by decide⟩

/-- C7 amended: the Bitcoin validator returns `is_valid = true` exactly
for `1`, `3` or `bc1` followed by 25-62 characters of the class
`[a-zA-HJ-NP-Z0-9]` (all lowercase letters including `l`, uppercase
letters except `I` and `O`, all digits including `0`), optionally
followed by one trailing newline; the Solana validator returns
`is_valid = true` exactly for 32-44 base58 characters (digits 1-9,
uppercase except `I`/`O`, lowercase except `l`), optionally followed by
one trailing newline; chain `"solana"` always evaluates the address
against the Solana pattern. -/
theorem C7_btc_sol_validation :
    ∀ addr : String,
      validate_wallet_address addr "bitcoin" =
        .success addr "bitcoin" (btcMatches addr)
          "Bitcoin addresses start with '1', '3', or 'bc1'"
          (if btcMatches addr then "Address format is valid!"
           else "Invalid address format.") ∧
      validate_wallet_address addr "solana" =
        .success addr "solana" (solMatches addr)
          "Solana addresses are base58 encoded, 32-44 characters"
          (if solMatches addr then "Address format is valid!"
           else "Invalid address format.") ∧
      (btcMatches addr = true ↔
        ∃ p ∈ [['1'], ['3'], ['b', 'c', '1']], ∃ rest : List Char,
          25 ≤ rest.length ∧ rest.length ≤ 62 ∧ rest.all isBtcChar = true ∧
          (addr.data = p ++ rest ∨ addr.data = p ++ (rest ++ ['\n']))) ∧
      (solMatches addr = true ↔
        ∃ rest : List Char,
          32 ≤ rest.length ∧ rest.length ≤ 44 ∧ rest.all isSolChar = true ∧
          (addr.data = rest ∨ addr.data = rest ++ ['\n'])) ∧
      (isBtcChar 'l' = true ∧ isBtcChar '0' = true ∧
        isBtcChar 'I' = false ∧ isBtcChar 'O' = false) ∧
      (isSolChar '1' = true ∧ isSolChar '0' = false ∧ isSolChar 'I' = false ∧
        isSolChar 'O' = false ∧ isSolChar 'l' = false) := by
  intro addr
  refine ⟨rfl, rfl, ?_, ?_, by decide, by decide⟩
  · exact pyFullMatch_iff _ _ _ _ addr (by decide) (by decide)
  · rw [solMatches, pyFullMatch_iff _ _ _ _ _ (by decide) (by decide)]
    constructor
    · rintro ⟨p, hp, rest, h1, h2, h3, hshape⟩
      simp only [List.mem_singleton] at hp
      subst hp
      exact ⟨rest, h1, h2, h3, by simpa using hshape⟩
    · rintro ⟨rest, h1, h2, h3, hshape⟩
      exact ⟨[], by simp, rest, h1, h2, h3, by simpa using hshape⟩

/-- Witness for C7 at a concrete Bitcoin-style address checked against the
Solana pattern (the spec's scenario: it must not be silently accepted). -/
theorem C7_btc_sol_validation_witness :
    validate_wallet_address "1A1zP1eP5QGefi2DMPTfTL5SLmv7DivfNa" "solana" =
      .success "1A1zP1eP5QGefi2DMPTfTL5SLmv7DivfNa" "solana"
        (solMatches "1A1zP1eP5QGefi2DMPTfTL5SLmv7DivfNa")
        "Solana addresses are base58 encoded, 32-44 characters"
        (if solMatches "1A1zP1eP5QGefi2DMPTfTL5SLmv7DivfNa" then
          "Address format is valid!" else "Invalid address format.") :=
  (C7_btc_sol_validation "1A1zP1eP5QGefi2DMPTfTL5SLmv7DivfNa").2.1

/-- C8: `validate_wallet_address` defaults the chain to `"ethereum"`;
an unsupported lowercased chain key yields Error listing the supported
chains, and a supported one yields Success carrying the address, the
validity flag, the chain's format description and the validity message —
an invalid address still yields status Success with `is_valid = false`. -/
theorem C8_validator_envelope :
    ∀ (a c : String),
      validate_wallet_address a = validate_wallet_address a "ethereum" ∧
      (pyLower c ∉ ["ethereum", "bitcoin", "solana"] →
        validate_wallet_address a c =
          .error ("Validation not supported for chain: " ++ c)
            ["ethereum", "bitcoin", "solana"]) ∧
      (∀ v, validations.lookup (pyLower c) = some v →
        validate_wallet_address a c =
          .success a c (v.pattern a) v.description
            (if v.pattern a then "Address format is valid!"
             else "Invalid address format.") ∧
        (validate_wallet_address a c).status = "success") := by
  intro a c
  refine ⟨rfl, ?_, ?_⟩
  · intro h
    have hn : validations.lookup (pyLower c) = none := by
      rw [lookup_eq_none_iff]
      have hkeys : validations.map Prod.fst = ["ethereum", "bitcoin", "solana"] := rfl
      rw [hkeys]
      exact h
    simp [validate_wallet_address, hn]
    rfl
  · intro v hv
    constructor
    · simp [validate_wallet_address, hv]
    · simp [validate_wallet_address, hv, ValidationResult.status]

/-- Witness for C8 at concrete inputs: an unsupported chain and the
default-equivalent ethereum chain, where the invalid address `abc` still
yields a Success envelope. -/
theorem C8_validator_envelope_witness :
    validate_wallet_address "abc" "ripple" =
      .error "Validation not supported for chain: ripple"
        ["ethereum", "bitcoin", "solana"] ∧
    validate_wallet_address "abc" "ethereum" =
      .success "abc" "ethereum" (ethMatches "abc")
        "Ethereum addresses start with '0x' followed by 40 hex characters"
        (if ethMatches "abc" then "Address format is valid!"
         else "Invalid address format.") :=
  ⟨(C8_validator_envelope "abc" "ripple").2.1 (by decide),
   ((C8_validator_envelope "abc" "ethereum").2.2
      ⟨ethMatches,
       "Ethereum addresses start with '0x' followed by 40 hex characters"⟩
      rfl).1⟩

set_option maxRecDepth 4000 in
/-- C6 counterexample: gas-fee lookup and the validator's chain selection
only lowercase without trimming, so `" ETHEREUM "` is not treated like
`"ethereum"` there, contradicting the claim that every lookup of the
five operations is whitespace-insensitive. -/
theorem C6_counterexample :
    explain_gas_fees " ETHEREUM " =
      .notFound "Gas info not available for  ETHEREUM "
        ["ethereum", "solana", "polygon"] ∧
    (explain_gas_fees "ethereum").status = "success" ∧
    validate_wallet_address "0x71C7656EC7ab88b098defB751B7401B5f6d8976F" " ETHEREUM " =
      .error "Validation not supported for chain:  ETHEREUM "
        ["ethereum", "bitcoin", "solana"] ∧
    convert_crypto_units 1 " ETH " "gwei" =
      .errorUnits "Invalid unit"
        ["wei", "gwei", "eth", "ether", "satoshi", "sat", "btc", "bitcoin",
         "lamport", "lamports", "sol", "solana"] := by
  refine ⟨by decide, by decide, by decide, by decide⟩

set_option maxRecDepth 4000 in
/-- C6 amended: chain lookup and contract-template lookup lowercase and
trim their key, so `" ETHEREUM "` and `"ethereum"` give identical results
there; gas-fee lookup, the validator's chain selection and the
converter's unit resolution only lowercase (case-insensitive but
whitespace-sensitive), so `" ETHEREUM "`/`" ETH "` fall into the
not-found/error branches while the case-changed keys `"ETHEREUM"`,
`"ETH"`, `"GWEI"` behave like their lowercase forms. -/
theorem C6_key_normalization :
    get_blockchain_info " ETHEREUM " = get_blockchain_info "ethereum" ∧
    get_smart_contract_template " ERC20 " = get_smart_contract_template "erc20" ∧
    explain_gas_fees " ETHEREUM " ≠ explain_gas_fees "ethereum" ∧
    (explain_gas_fees " ETHEREUM ").status = "not_found" ∧
    (explain_gas_fees "ETHEREUM").status = "success" ∧
    (∀ a : String,
      (validate_wallet_address a "ETHEREUM").isValidFlag =
        (validate_wallet_address a "ethereum").isValidFlag ∧
      (validate_wallet_address a " ETHEREUM ").status = "error") ∧
    (∀ amt : ℚ,
      (convert_crypto_units amt "ETH" "GWEI").status =
        (convert_crypto_units amt "eth" "gwei").status ∧
      (convert_crypto_units amt "ETH" "GWEI").outputAmount =
        (convert_crypto_units amt "eth" "gwei").outputAmount ∧
      (convert_crypto_units amt " ETH " "gwei").status = "error") := by
  refine ⟨by decide, by decide, by decide, by decide, by decide,
    fun a => ⟨rfl, rfl⟩, fun amt => ⟨rfl, rfl, rfl⟩⟩

/-- C9: every one of the five tool functions is total and returns one of
the Success / NotFound / Error envelope variants for every input — the
`status` of each result envelope is always one of `"success"`,
`"not_found"`, `"error"`. -/
theorem C9_total_envelope :
    ∀ (s a c ct fu tu : String) (amt : ℚ),
      (get_blockchain_info s).status ∈
        (["success", "not_found", "error"] : List String) ∧
      (validate_wallet_address a c).status ∈
        (["success", "not_found", "error"] : List String) ∧
      (explain_gas_fees c).status ∈
        (["success", "not_found", "error"] : List String) ∧
      (get_smart_contract_template ct).status ∈
        (["success", "not_found", "error"] : List String) ∧
      (convert_crypto_units amt fu tu).status ∈
        (["success", "not_found", "error"] : List String) := by
  intro s a c ct fu tu amt
  refine ⟨?_, ?_, ?_, ?_, ?_⟩
  · cases h : get_blockchain_info s <;> simp [InfoResult.status]
  · cases h : validate_wallet_address a c <;> simp [ValidationResult.status]
  · cases h : explain_gas_fees c <;> simp [GasResult.status]
  · cases h : get_smart_contract_template ct <;> simp [TemplateResult.status]
  · cases h : convert_crypto_units amt fu tu <;> simp [ConvertResult.status]

/-- Witness for C9 at concrete inputs. -/
theorem C9_total_envelope_witness :
    (get_blockchain_info "?!").status ∈
      (["success", "not_found", "error"] : List String) ∧
    (validate_wallet_address "" "").status ∈
      (["success", "not_found", "error"] : List String) :=
  ⟨(C9_total_envelope "?!" "" "" "" "" "" 0).1,
   (C9_total_envelope "?!" "" "" "" "" "" 0).2.1⟩

lemma validations_agree (k : String) :
    (validations.lookup k = none ∧ agent_validations.lookup k = none) ∨
    (∃ v w, validations.lookup k = some v ∧ agent_validations.lookup k = some w ∧
      v.pattern = w.pattern) := by
  rcases eq_or_ne k "ethereum" with h1 | h1
  · subst h1
    right
    exact ⟨_, _, rfl, rfl, rfl⟩
  rcases eq_or_ne k "bitcoin" with h2 | h2
  · subst h2
    right
    exact ⟨_, _, rfl, rfl, rfl⟩
  rcases eq_or_ne k "solana" with h3 | h3
  · subst h3
    right
    exact ⟨_, _, rfl, rfl, rfl⟩
  · left
    constructor
    · rw [lookup_eq_none_iff]
      have hkeys : validations.map Prod.fst = ["ethereum", "bitcoin", "solana"] := rfl
      rw [hkeys]
      simp [h1, h2, h3]
    · rw [lookup_eq_none_iff]
      have hkeys : agent_validations.map Prod.fst = ["ethereum", "bitcoin", "solana"] := rfl
      rw [hkeys]
      simp [h1, h2, h3]

/-- C10 counterexample: the two same-named `get_blockchain_info`
functions disagree — `"binance"` is a key of the agent.py table only, so
app.py returns NotFound where agent.py returns Success. -/
theorem C10_counterexample :
    get_blockchain_info "binance" ≠ agent_get_blockchain_info "binance" ∧
    (get_blockchain_info "binance").status = "not_found" ∧
    (agent_get_blockchain_info "binance").status = "success" := by
  refine ⟨by decide, by decide, by decide⟩

/-- C10 amended: the five same-named tool-function pairs of
`src/app.py` and `src/blockchain_assistant/agent.py` are not pointwise
equal (see the counterexample), but the two validators agree on status
and on the `is_valid` verdict for every input, and the two converters
agree on status and on the output amount for every input. -/
theorem C10_app_agent_agreement :
    ∀ (a c fu tu : String) (amt : ℚ),
      (validate_wallet_address a c).status =
        (agent_validate_wallet_address a c).status ∧
      (validate_wallet_address a c).isValidFlag =
        (agent_validate_wallet_address a c).isValidFlag ∧
      (convert_crypto_units amt fu tu).status =
        (agent_convert_crypto_units amt fu tu).status ∧
      (convert_crypto_units amt fu tu).outputAmount =
        (agent_convert_crypto_units amt fu tu).outputAmount := by
  intro a c fu tu amt
  refine ⟨?_, ?_, ?_, ?_⟩
  · obtain ⟨h1, h2⟩ | ⟨v, w, hv, hw, hvw⟩ := validations_agree (pyLower c)
    · simp [validate_wallet_address, agent_validate_wallet_address, h1, h2,
        ValidationResult.status]
    · simp [validate_wallet_address, agent_validate_wallet_address, hv, hw,
        ValidationResult.status]
  · obtain ⟨h1, h2⟩ | ⟨v, w, hv, hw, hvw⟩ := validations_agree (pyLower c)
    · simp [validate_wallet_address, agent_validate_wallet_address, h1, h2,
        ValidationResult.isValidFlag]
    · simp [validate_wallet_address, agent_validate_wallet_address, hv, hw,
        ValidationResult.isValidFlag, hvw]
  · cases hf : conversions.lookup (pyLower fu) with
    | none =>
        simp [convert_crypto_units, agent_convert_crypto_units, hf,
          ConvertResult.status]
    | some f =>
        cases ht : conversions.lookup (pyLower tu) with
        | none =>
            simp [convert_crypto_units, agent_convert_crypto_units, hf, ht,
              ConvertResult.status]
        | some t =>
            by_cases hc : get_chain (pyLower fu) = get_chain (pyLower tu)
            · simp [convert_crypto_units, agent_convert_crypto_units, hf, ht,
                hc, ConvertResult.status]
            · simp [convert_crypto_units, agent_convert_crypto_units, hf, ht,
                hc, ConvertResult.status]
  · cases hf : conversions.lookup (pyLower fu) with
    | none =>
        simp [convert_crypto_units, agent_convert_crypto_units, hf,
          ConvertResult.outputAmount]
    | some f =>
        cases ht : conversions.lookup (pyLower tu) with
        | none =>
            simp [convert_crypto_units, agent_convert_crypto_units, hf, ht,
              ConvertResult.outputAmount]
        | some t =>
            by_cases hc : get_chain (pyLower fu) = get_chain (pyLower tu)
            · simp [convert_crypto_units, agent_convert_crypto_units, hf, ht,
                hc, ConvertResult.outputAmount]
            · simp [convert_crypto_units, agent_convert_crypto_units, hf, ht,
                hc, ConvertResult.outputAmount]

/-- Witness for C10 at concrete inputs. -/
theorem C10_app_agent_agreement_witness :
    (validate_wallet_address "abc" "ethereum").status =
      (agent_validate_wallet_address "abc" "ethereum").status ∧
    (convert_crypto_units 1 "eth" "btc").status =
      (agent_convert_crypto_units 1 "eth" "btc").status :=
  ⟨(C10_app_agent_agreement "abc" "ethereum" "eth" "btc" 1).1,
   (C10_app_agent_agreement "abc" "ethereum" "eth" "btc" 1).2.2.1⟩
example :
    convert_crypto_units 1 "eth" "doge" =
      .errorUnits "Invalid unit"
        ["wei", "gwei", "eth", "ether", "satoshi", "sat", "btc", "bitcoin",
         "lamport", "lamports", "sol", "solana"] := by decide
